import Mathlib

/-!
Verification of the TouchRelay input-relay protocol dispatcher.

Shallow embedding of `src/handler.rs` (the current Session loop and message
dispatcher) and of the historical snapshot `handle_message` in `src/main.rs`.
The `enigo` actuator is modelled as a function from the concrete actuator
call to an optional platform error message; every actuator call and every
50 ms suspension performed by the dispatcher is recorded in an event trace.
JSON parsing (`serde_json::from_str`, library code) is modelled by taking
the parse outcome — either an error message or a decoded value — as the
input of `handle_message`.
-/

namespace TouchRelay

/-- JSON values as decoded by serde_json. Integral numbers carry their exact
value; non-integral numbers are collapsed to `float`, on which the integer
accessors `as_i64` / `as_u64` fail, exactly as they do on an f64-backed
serde_json number. -/
inductive JVal where
  | null
  | bool (b : Bool)
  | int (n : Int)
  | float
  | str (s : String)
  | arr (elems : List JVal)
  | obj (fields : List (String × JVal))

/-- serde_json `Value::as_str`: `Some` exactly on strings. -/
def JVal.as_str : JVal → Option String
  | .str s => some s
  | _ => none

/-- serde_json `Value::as_i64`: `Some` exactly on integral numbers
representable as a signed 64-bit integer. -/
def JVal.as_i64 : JVal → Option Int
  | .int n =>
      if -9223372036854775808 ≤ n ∧ n < 9223372036854775808 then some n else none
  | _ => none

/-- serde_json `Value::as_u64`: `Some` exactly on integral numbers
representable as an unsigned 64-bit integer. -/
def JVal.as_u64 : JVal → Option Nat
  | .int n =>
      if 0 ≤ n ∧ n < 18446744073709551616 then some n.toNat else none
  | _ => none

/-- Rust `as i32` applied to an i64 value: truncation to the low 32 bits,
reinterpreted as a two's-complement signed 32-bit integer. -/
def i64_as_i32 (n : Int) : Int :=
  let m := n % 4294967296
  if m < 2147483648 then m else m - 4294967296

/-- Rust `as u32` applied to a u64 value: reduction modulo 2^32. -/
def u64_as_u32 (n : Nat) : Nat :=
  n % 4294967296

/-- The enigo mouse buttons referenced by the dispatcher. -/
inductive Button where
  | Left
  | Right
deriving DecidableEq

/-- The enigo event directions referenced by the dispatcher. -/
inductive Direction where
  | Press
  | Release
  | Click
deriving DecidableEq

/-- The enigo coordinate modes. -/
inductive Coordinate where
  | Abs
  | Rel
deriving DecidableEq

/-- The enigo scroll axes. -/
inductive Axis where
  | Horizontal
  | Vertical
deriving DecidableEq

/-- The enigo key identifiers relevant here: the five produced by the
dispatcher's key table plus `Delete`, which exists in enigo's `Key` enum but
is deliberately never produced (the protocol's "Delete" name is mapped to
`Backspace`). -/
inductive Key where
  | Escape
  | PageUp
  | PageDown
  | Backspace
  | Delete
  | Return
deriving DecidableEq

/-- One concrete actuator (enigo) call, with all its arguments. -/
inductive ActCall where
  | moveMouse (dx dy : Int) (coord : Coordinate)
  | button (b : Button) (d : Direction)
  | scroll (amount : Int) (axis : Axis)
  | text (s : String)
  | key (k : Key) (d : Direction)
deriving DecidableEq

/-- One observable event of a dispatch: an actuator call, or a timed
suspension (`tokio::time::sleep`) of the given number of milliseconds. -/
inductive Event where
  | call (c : ActCall)
  | sleepMs (ms : Nat)
deriving DecidableEq

/-- The actuator's behaviour: for each call, `none` means the platform call
succeeds, `some e` means it fails with platform error message `e`. -/
abbrev Act := ActCall → Option String

/-- The actuator that never fails. -/
def alwaysOk : Act := fun _ => none

/-- Count of button-click actuator calls in a trace. -/
def countClicks : List Event → Nat
  | [] => 0
  | .call (.button _ .Click) :: rest => countClicks rest + 1
  | _ :: rest => countClicks rest

/-- The errors `handle_message` can return, one constructor per `Err` site of
the source; `render` recovers the exact `String` the Rust code builds. -/
inductive HErr where
  | jsonParse (e : String)
  | notArray
  | emptyArray
  | invalidCommandType
  | invalidMouseMove
  | invalidDx
  | invalidDy
  | mouseMoveFailed (e : String)
  | invalidButtonClick
  | invalidButtonType
  | invalidClickCount
  | unknownButtonType (s : String)
  | buttonClickFailed (e : String)
  | invalidWheel
  | wheelScrollFailed (e : String)
  | invalidText
  | invalidTextContent
  | textInputFailed (e : String)
  | invalidKeyPress
  | invalidKeyName
  | unknownKey (s : String)
  | keyPressFailed (e : String)
  | unknownCommand (s : String)
deriving DecidableEq

deriving instance DecidableEq for Except

/-- The exact error string the Rust code produces for each error. -/
def HErr.render : HErr → String
  | .jsonParse e => "JSON parse error: " ++ e
  | .notArray => "Message is not an array"
  | .emptyArray => "Empty message array"
  | .invalidCommandType => "Invalid command type"
  | .invalidMouseMove => "Invalid mouse move message"
  | .invalidDx => "Invalid dx"
  | .invalidDy => "Invalid dy"
  | .mouseMoveFailed e => "Mouse move failed: " ++ e
  | .invalidButtonClick => "Invalid button click message"
  | .invalidButtonType => "Invalid button type"
  | .invalidClickCount => "Invalid click count"
  | .unknownButtonType s => "Unknown button type: " ++ s
  | .buttonClickFailed e => "Button click failed: " ++ e
  | .invalidWheel => "Invalid wheel message"
  | .wheelScrollFailed e => "Wheel scroll failed: " ++ e
  | .invalidText => "Invalid text message"
  | .invalidTextContent => "Invalid text content"
  | .textInputFailed e => "Text input failed: " ++ e
  | .invalidKeyPress => "Invalid key press message"
  | .invalidKeyName => "Invalid key name"
  | .unknownKey s => "Unknown key: " ++ s
  | .keyPressFailed e => "Key press failed: " ++ e
  | .unknownCommand s => "Unknown command: " ++ s

/-- The button table of the `"b"` branch: `"l"` and `"r"` are the closed
enumeration, anything else is rejected. -/
def buttonOfString (s : String) : Option Button :=
  if s = "l" then some .Left
  else if s = "r" then some .Right
  else none

/-- The key table of the `"k"` branch. `"Delete"` is deliberately mapped to
`Key.Backspace` (the source comment: Del button sends Backspace key). -/
def keyOfString (s : String) : Option Key :=
  if s = "Escape" then some .Escape
  else if s = "PageUp" then some .PageUp
  else if s = "PageDown" then some .PageDown
  else if s = "Delete" then some .Backspace
  else if s = "Return" then some .Return
  else none

/-- The `for _ in 0..click_count` loop of the `"b"` branch: `count` remaining
iterations of a loop whose total iteration count is `total`. Each iteration
performs one click call; on failure the error is propagated immediately (no
sleep after the failing click); on success, when `total > 1`, a 50 ms sleep
follows the click. This loop is character-for-character identical in
`src/handler.rs` and in the `src/main.rs` snapshot, so it is shared. -/
def clickLoop (act : Act) (b : Button) (count total : Nat) :
    List Event × Except HErr Unit :=
  match count with
  | 0 => ([], .ok ())
  | n + 1 =>
      match act (.button b .Click) with
      | some e => ([.call (.button b .Click)], .error (.buttonClickFailed e))
      | none =>
          let sleeps : List Event := if total > 1 then [.sleepMs 50] else []
          let rest := clickLoop act b n total
          (.call (.button b .Click) :: (sleeps ++ rest.1), rest.2)

namespace Handler

/-- The `"m"` arm of `handle_message` (src/handler.rs lines 54-65), applied
to the elements after the tag; the source's `arr.len() < 3` arity check is
the two-element length check on this tail. -/
def handle_m (act : Act) (args : List JVal) : List Event × Except HErr Unit :=
  match args with
  | a1 :: a2 :: _ =>
      match a1.as_i64 with
      | none => ([], .error .invalidDx)
      | some dxRaw =>
          match a2.as_i64 with
          | none => ([], .error .invalidDy)
          | some dyRaw =>
              let dx := i64_as_i32 dxRaw
              let dy := i64_as_i32 dyRaw
              let c := ActCall.moveMouse dx dy .Rel
              match act c with
              | some e => ([.call c], .error (.mouseMoveFailed e))
              | none => ([.call c], .ok ())
  | _ => ([], .error .invalidMouseMove)

/-- The `"b"` arm of `handle_message` (src/handler.rs lines 67-90): button
string and count are read first (in that order), then the button name is
resolved, then the click loop runs. -/
def handle_b (act : Act) (args : List JVal) : List Event × Except HErr Unit :=
  match args with
  | a1 :: a2 :: _ =>
      match a1.as_str with
      | none => ([], .error .invalidButtonType)
      | some button_type =>
          match a2.as_u64 with
          | none => ([], .error .invalidClickCount)
          | some cntRaw =>
              let click_count := u64_as_u32 cntRaw
              match buttonOfString button_type with
              | none => ([], .error (.unknownButtonType button_type))
              | some button => clickLoop act button click_count click_count
  | _ => ([], .error .invalidButtonClick)

/-- The `"w"` arm of `handle_message` (src/handler.rs lines 92-103). -/
def handle_w (act : Act) (args : List JVal) : List Event × Except HErr Unit :=
  match args with
  | a1 :: _ =>
      match a1.as_i64 with
      | none => ([], .error .invalidDy)
      | some dyRaw =>
          let dy := i64_as_i32 dyRaw
          let c := ActCall.scroll dy .Vertical
          match act c with
          | some e => ([.call c], .error (.wheelScrollFailed e))
          | none => ([.call c], .ok ())
  | _ => ([], .error .invalidWheel)

/-- The `"t"` arm of `handle_message` (src/handler.rs lines 105-115). -/
def handle_t (act : Act) (args : List JVal) : List Event × Except HErr Unit :=
  match args with
  | a1 :: _ =>
      match a1.as_str with
      | none => ([], .error .invalidTextContent)
      | some text_content =>
          let c := ActCall.text text_content
          match act c with
          | some e => ([.call c], .error (.textInputFailed e))
          | none => ([.call c], .ok ())
  | _ => ([], .error .invalidText)

/-- The `"k"` arm of `handle_message` (src/handler.rs lines 117-137). -/
def handle_k (act : Act) (args : List JVal) : List Event × Except HErr Unit :=
  match args with
  | a1 :: _ =>
      match a1.as_str with
      | none => ([], .error .invalidKeyName)
      | some key_name =>
          match keyOfString key_name with
          | none => ([], .error (.unknownKey key_name))
          | some key =>
              let c := ActCall.key key .Click
              match act c with
              | some e => ([.call c], .error (.keyPressFailed e))
              | none => ([.call c], .ok ())
  | _ => ([], .error .invalidKeyPress)

/-- `handle_message` of `src/handler.rs` (lines 42-153). `parsed` is the
outcome of `serde_json::from_str(text)`; `act` is the enigo actuator.
Returns the trace of actuator calls and suspensions actually performed,
together with the Rust function's `Result<(), String>` (errors structured
as `HErr`, rendered to the source's strings by `HErr.render`). The Rust
`match` on the `&str` tag is a chain of string-equality tests, written here
as an if-chain over the per-arm functions above. -/
def handle_message (act : Act) (parsed : Except String JVal) :
    List Event × Except HErr Unit :=
  match parsed with
  | .error e => ([], .error (.jsonParse e))
  | .ok msg =>
    match msg with
    | .arr arrv =>
      match arrv with
      | [] => ([], .error .emptyArray)
      | a0 :: rest =>
        match a0.as_str with
        | none => ([], .error .invalidCommandType)
        | some cmd =>
          if cmd = "m" then handle_m act rest
          else if cmd = "b" then handle_b act rest
          else if cmd = "w" then handle_w act rest
          else if cmd = "t" then handle_t act rest
          else if cmd = "k" then handle_k act rest
          else if cmd = "ping" then ([], .ok ())
          else ([], .error (.unknownCommand cmd))
    | _ => ([], .error .notArray)

/-- One message of the transport's receive stream, as matched by the
`handle_socket` loop: a text frame (carrying its raw string and its
serde_json parse outcome), a close frame, a transport-level read error, or
any other frame kind (binary, ping, pong), which the loop ignores. -/
inductive WsMsg where
  | text (raw : String) (parsed : Except String JVal)
  | close
  | transportError (e : String)
  | other

/-- The `while let Some(msg) = socket.recv().await` loop of `handle_socket`
(src/handler.rs lines 21-38), run over the finite list of messages the
transport delivers (list end = stream end). Returns the actuator event trace
and the list of warn-logs, each pairing the offending raw frame with the
rendered error. A text frame is dispatched (and on failure logged) and the
loop continues; a close frame or a transport error breaks the loop; other
frames are skipped. -/
def socketLoop (act : Act) : List WsMsg → List Event × List (String × String)
  | [] => ([], [])
  | .text raw p :: rest =>
      let out := handle_message act p
      let tail := socketLoop act rest
      match out.2 with
      | .ok _ => (out.1 ++ tail.1, tail.2)
      | .error e => (out.1 ++ tail.1, (raw, e.render) :: tail.2)
  | .close :: _ => ([], [])
  | .transportError _ :: _ => ([], [])
  | .other :: rest => socketLoop act rest

/-- `handle_socket` of `src/handler.rs` (lines 9-39): `enigoNew` is the
outcome of `Enigo::new(&Settings::default())`; on failure the function logs
and returns before the frame loop, so nothing is dispatched. -/
def handle_socket (enigoNew : Except String Unit) (act : Act)
    (msgs : List WsMsg) : List Event × List (String × String) :=
  match enigoNew with
  | .error _ => ([], [])
  | .ok _ => socketLoop act msgs

end Handler

namespace MainSnapshot

/-- `handle_message` of the historical snapshot in `src/main.rs` (lines
329-418). Its `"m"`, `"b"`, `"w"`, `"t"` and `"ping"` arms are
character-for-character identical to the ones in `src/handler.rs`, so the
per-arm functions are shared; the snapshot has no `"k"` arm, so a `"k"`
frame falls through to the wildcard arm and is rejected as an unknown
command. -/
def handle_message (act : Act) (parsed : Except String JVal) :
    List Event × Except HErr Unit :=
  match parsed with
  | .error e => ([], .error (.jsonParse e))
  | .ok msg =>
    match msg with
    | .arr arrv =>
      match arrv with
      | [] => ([], .error .emptyArray)
      | a0 :: rest =>
        match a0.as_str with
        | none => ([], .error .invalidCommandType)
        | some cmd =>
          if cmd = "m" then Handler.handle_m act rest
          else if cmd = "b" then Handler.handle_b act rest
          else if cmd = "w" then Handler.handle_w act rest
          else if cmd = "t" then Handler.handle_t act rest
          else if cmd = "ping" then ([], .ok ())
          else ([], .error (.unknownCommand cmd))
    | _ => ([], .error .notArray)

end MainSnapshot

/-- The spec's error taxonomy (§7), restricted to the classes the Codec and
Dispatcher can attach to one message. -/
inductive ErrClass where
  | MalformedPayload
  | NotAnArray
  | EmptyArray
  | MissingTag
  | ArityError
  | TypeError
  | UnknownCommand
  | UnknownKeyName
  | UnknownButtonName
  | ActuatorError
deriving DecidableEq

/-- The spec taxonomy class of each concrete handler error. -/
def HErr.specClass : HErr → ErrClass
  | .jsonParse _ => .MalformedPayload
  | .notArray => .NotAnArray
  | .emptyArray => .EmptyArray
  | .invalidCommandType => .MissingTag
  | .invalidMouseMove => .ArityError
  | .invalidDx => .TypeError
  | .invalidDy => .TypeError
  | .mouseMoveFailed _ => .ActuatorError
  | .invalidButtonClick => .ArityError
  | .invalidButtonType => .TypeError
  | .invalidClickCount => .TypeError
  | .unknownButtonType _ => .UnknownButtonName
  | .buttonClickFailed _ => .ActuatorError
  | .invalidWheel => .ArityError
  | .wheelScrollFailed _ => .ActuatorError
  | .invalidText => .ArityError
  | .invalidTextContent => .TypeError
  | .textInputFailed _ => .ActuatorError
  | .invalidKeyPress => .ArityError
  | .invalidKeyName => .TypeError
  | .unknownKey _ => .UnknownKeyName
  | .keyPressFailed _ => .ActuatorError
  | .unknownCommand _ => .UnknownCommand

/-- Modelled from the spec (§4.1, tag `"m"`): two required positional
arguments, `ArityError` when absent, `TypeError` when present with the
wrong shape (checked left to right). -/
def specM (args : List JVal) : Option ErrClass :=
  match args with
  | a1 :: a2 :: _ =>
      if (a1.as_i64).isNone then some .TypeError
      else if (a2.as_i64).isNone then some .TypeError
      else none
  | _ => some .ArityError

/-- Modelled from the spec (§4.1, tag `"b"`): two required arguments; shape
errors are `TypeError`; a button string outside the closed enumeration
{"l","r"} is `UnknownButtonName`. -/
def specB (args : List JVal) : Option ErrClass :=
  match args with
  | a1 :: a2 :: _ =>
      match a1.as_str with
      | none => some .TypeError
      | some bt =>
          if (a2.as_u64).isNone then some .TypeError
          else if bt = "l" ∨ bt = "r" then none
          else some .UnknownButtonName
  | _ => some .ArityError

/-- Modelled from the spec (§4.1, tag `"w"`): one required integer
argument. -/
def specW (args : List JVal) : Option ErrClass :=
  match args with
  | a1 :: _ => if (a1.as_i64).isNone then some .TypeError else none
  | _ => some .ArityError

/-- Modelled from the spec (§4.1, tag `"t"`): one required string
argument. -/
def specT (args : List JVal) : Option ErrClass :=
  match args with
  | a1 :: _ => if (a1.as_str).isNone then some .TypeError else none
  | _ => some .ArityError

/-- Modelled from the spec (§4.1, tag `"k"`): one required string
argument; a key name outside the closed enumeration {Escape, PageUp,
PageDown, Delete, Return} is `UnknownKeyName`. -/
def specK (args : List JVal) : Option ErrClass :=
  match args with
  | a1 :: _ =>
      match a1.as_str with
      | none => some .TypeError
      | some kn =>
          if kn = "Escape" ∨ kn = "PageUp" ∨ kn = "PageDown" ∨
              kn = "Delete" ∨ kn = "Return" then none
          else some .UnknownKeyName
  | _ => some .ArityError

/-- Modelled from the spec: the Message Codec contract of §4.1, as a pure
classifier from a parse outcome to the error class the spec requires
(`none` when the frame is well formed and the Dispatcher is reached).
Arity is checked before argument shapes, shapes left to right, and the
closed button/key enumerations last — the positional order of §4.1's
bullet list. -/
def specErrorClass (parsed : Except String JVal) : Option ErrClass :=
  match parsed with
  | .error _ => some .MalformedPayload
  | .ok v =>
    match v with
    | .arr arrv =>
      match arrv with
      | [] => some .EmptyArray
      | a0 :: rest =>
        match a0.as_str with
        | none => some .MissingTag
        | some tag =>
          if tag = "m" then specM rest
          else if tag = "b" then specB rest
          else if tag = "w" then specW rest
          else if tag = "t" then specT rest
          else if tag = "k" then specK rest
          else if tag = "ping" then none
          else some .UnknownCommand
    | _ => some .NotAnArray

/-- The trace the click loop produces when the actuator never fails and the
requested (already cast) count is `n`: `n` blocks, each one click followed —
when `n > 1` — by a 50 ms suspension. -/
def clickTrace (n : Nat) (b : Button) : List Event :=
  (List.replicate n
    (Event.call (.button b .Click) ::
      (if n > 1 then [Event.sleepMs 50] else []))).flatten

/-- The codec-level spec class of a dispatch outcome: `none` for success and
for actuator-reported failures (which the spec files under `ActuatorError`,
outside the Codec contract), otherwise the error's spec class. -/
def outcomeClass : Except HErr Unit → Option ErrClass
  | .ok _ => none
  | .error e => if e.specClass = .ActuatorError then none else some e.specClass

/-- The command tag of a parse outcome, when there is one: the first element
of a decoded top-level array, if it is a string. -/
def tagOf (parsed : Except String JVal) : Option String :=
  match parsed with
  | .error _ => none
  | .ok v =>
    match v with
    | .arr (a0 :: _) => a0.as_str
    | _ => none

theorem as_i64_int (n : Int) (h1 : -9223372036854775808 ≤ n)
    (h2 : n < 9223372036854775808) : JVal.as_i64 (.int n) = some n := by
  simp [JVal.as_i64]; omega

theorem as_u64_intNat (n : Nat) (h : n < 18446744073709551616) :
    JVal.as_u64 (.int n) = some n := by
  simp [JVal.as_u64]; omega

theorem i64_as_i32_id (n : Int) (h1 : -2147483648 ≤ n) (h2 : n < 2147483648) :
    i64_as_i32 n = n := by
  simp only [i64_as_i32]
  split <;> omega

/-- The truncating cast is exactly reduction modulo 2^32, landing in the
signed 32-bit window. -/
theorem i64_as_i32_emod (n : Int) :
    i64_as_i32 n % 4294967296 = n % 4294967296 ∧
    -2147483648 ≤ i64_as_i32 n ∧ i64_as_i32 n < 2147483648 := by
  simp only [i64_as_i32]
  split <;> constructor <;> omega

theorem u64_as_u32_id (n : Nat) (h : n < 4294967296) : u64_as_u32 n = n := by
  simp [u64_as_u32]; omega

theorem clickLoop_ok (act : Act) (b : Button) (k t : Nat)
    (h : act (.button b .Click) = none) :
    clickLoop act b k t =
      ((List.replicate k
        (Event.call (.button b .Click) ::
          (if t > 1 then [Event.sleepMs 50] else []))).flatten, .ok ()) := by
  induction k with
  | zero => simp [clickLoop]
  | succ m ih => simp [clickLoop, h, ih, List.replicate_succ]

theorem countClicks_append (xs ys : List Event) :
    countClicks (xs ++ ys) = countClicks xs + countClicks ys := by
  induction xs with
  | nil => simp [countClicks]
  | cons x rest ih =>
      match x with
      | .call (.button b .Click) => simp [countClicks, ih]; omega
      | .call (.moveMouse dx dy c) => simp [countClicks, ih]
      | .call (.button b .Press) => simp [countClicks, ih]
      | .call (.button b .Release) => simp [countClicks, ih]
      | .call (.scroll a ax) => simp [countClicks, ih]
      | .call (.text s) => simp [countClicks, ih]
      | .call (.key k d) => simp [countClicks, ih]
      | .sleepMs ms => simp [countClicks, ih]

theorem countClicks_flatten_replicate (k : Nat) (block : List Event) :
    countClicks (List.replicate k block).flatten = k * countClicks block := by
  induction k with
  | zero => simp [countClicks]
  | succ m ih =>
      rw [List.replicate_succ, List.flatten_cons, countClicks_append, ih]
      ring

theorem countClicks_clickTrace (n : Nat) (b : Button) :
    countClicks (clickTrace n b) = n := by
  rw [clickTrace, countClicks_flatten_replicate]
  by_cases h : n > 1 <;> simp [h, countClicks]

theorem clickLoop_err_class (act : Act) (b : Button) (k t : Nat) :
    outcomeClass (clickLoop act b k t).2 = none ∧
    ∀ e, (clickLoop act b k t).2 = .error e → e.specClass = .ActuatorError := by
  induction k with
  | zero => simp [clickLoop, outcomeClass]
  | succ m ih =>
      simp only [clickLoop]
      cases h : act (.button b .Click) with
      | none => simpa using ih
      | some e => simp [outcomeClass, HErr.specClass]

/-- Reduction of `handle_message` on an `"m"` frame down to its two stuck
points (the integer accessors and the actuator call). -/
theorem handle_message_m (act : Act) (a1 a2 : JVal) (rest : List JVal) :
    Handler.handle_message act (.ok (.arr (.str "m" :: a1 :: a2 :: rest)))
      = (match a1.as_i64 with
         | none => ([], .error .invalidDx)
         | some dxRaw =>
            match a2.as_i64 with
            | none => ([], .error .invalidDy)
            | some dyRaw =>
              match act (.moveMouse (i64_as_i32 dxRaw) (i64_as_i32 dyRaw) .Rel) with
              | some e =>
                  ([.call (.moveMouse (i64_as_i32 dxRaw) (i64_as_i32 dyRaw) .Rel)],
                   .error (.mouseMoveFailed e))
              | none =>
                  ([.call (.moveMouse (i64_as_i32 dxRaw) (i64_as_i32 dyRaw) .Rel)],
                   .ok ())) := rfl

/-- Reduction of `handle_message` on a `"b"` frame down to its stuck
points. -/
theorem handle_message_b (act : Act) (a1 a2 : JVal) (rest : List JVal) :
    Handler.handle_message act (.ok (.arr (.str "b" :: a1 :: a2 :: rest)))
      = (match a1.as_str with
         | none => ([], .error .invalidButtonType)
         | some button_type =>
            match a2.as_u64 with
            | none => ([], .error .invalidClickCount)
            | some cntRaw =>
              match buttonOfString button_type with
              | none => ([], .error (.unknownButtonType button_type))
              | some button =>
                  clickLoop act button (u64_as_u32 cntRaw) (u64_as_u32 cntRaw)) :=
  rfl

/-- Reduction of `handle_message` on a `"w"` frame down to its stuck
points. -/
theorem handle_message_w (act : Act) (a1 : JVal) (rest : List JVal) :
    Handler.handle_message act (.ok (.arr (.str "w" :: a1 :: rest)))
      = (match a1.as_i64 with
         | none => ([], .error .invalidDy)
         | some dyRaw =>
            match act (.scroll (i64_as_i32 dyRaw) .Vertical) with
            | some e =>
                ([.call (.scroll (i64_as_i32 dyRaw) .Vertical)],
                 .error (.wheelScrollFailed e))
            | none =>
                ([.call (.scroll (i64_as_i32 dyRaw) .Vertical)], .ok ())) := rfl

/-- Reduction of `handle_message` on a `"t"` frame down to its stuck
points. -/
theorem handle_message_t (act : Act) (a1 : JVal) (rest : List JVal) :
    Handler.handle_message act (.ok (.arr (.str "t" :: a1 :: rest)))
      = (match a1.as_str with
         | none => ([], .error .invalidTextContent)
         | some text_content =>
            match act (.text text_content) with
            | some e => ([.call (.text text_content)], .error (.textInputFailed e))
            | none => ([.call (.text text_content)], .ok ())) := rfl

/-- Reduction of `handle_message` on a `"k"` frame down to its stuck
points. -/
theorem handle_message_k (act : Act) (a1 : JVal) (rest : List JVal) :
    Handler.handle_message act (.ok (.arr (.str "k" :: a1 :: rest)))
      = (match a1.as_str with
         | none => ([], .error .invalidKeyName)
         | some key_name =>
            match keyOfString key_name with
            | none => ([], .error (.unknownKey key_name))
            | some key =>
              match act (.key key .Click) with
              | some e => ([.call (.key key .Click)], .error (.keyPressFailed e))
              | none => ([.call (.key key .Click)], .ok ())) := rfl

/-- C5: if Actuator (Enigo) construction fails at connection start, the
Session terminates without entering the frame loop: whatever messages the
transport would deliver, the trace of dispatched commands (and of logged
frames) is empty. -/
theorem construction_failure_dispatches_nothing (err : String) (act : Act)
    (msgs : List Handler.WsMsg) :
    Handler.handle_socket (.error err) act msgs = ([], []) := rfl

/-- C8: the frame `["b", b, 0]` with b ∈ {"l","r"} is accepted: `as_u64`
admits the non-negative integer 0, the click loop runs zero iterations, and
the handler returns success having performed no actuator call at all. -/
theorem click_count_zero_accepted (act : Act) :
    Handler.handle_message act (.ok (.arr [.str "b", .str "l", .int 0]))
      = ([], .ok ()) ∧
    Handler.handle_message act (.ok (.arr [.str "b", .str "r", .int 0]))
      = ([], .ok ()) := ⟨rfl, rfl⟩

/-- C7: for every well-formed `["m", dx, dy]` with dx, dy in the signed
32-bit range, dispatch performs exactly one relative pointer-move call with
exactly (dx, dy), unmodified, and nothing else. -/
theorem mouse_move_exact (act : Act) (dx dy : Int)
    (hdx1 : -2147483648 ≤ dx) (hdx2 : dx < 2147483648)
    (hdy1 : -2147483648 ≤ dy) (hdy2 : dy < 2147483648)
    (h : act (.moveMouse dx dy .Rel) = none) :
    Handler.handle_message act (.ok (.arr [.str "m", .int dx, .int dy]))
      = ([.call (.moveMouse dx dy .Rel)], .ok ()) := by
  have e1 := as_i64_int dx (by omega) (by omega)
  have e2 := as_i64_int dy (by omega) (by omega)
  rw [handle_message_m, e1, e2]
  show (match act (ActCall.moveMouse (i64_as_i32 dx) (i64_as_i32 dy)
              Coordinate.Rel) with
        | some e =>
            ([Event.call (ActCall.moveMouse (i64_as_i32 dx) (i64_as_i32 dy)
                Coordinate.Rel)],
             Except.error (HErr.mouseMoveFailed e))
        | none =>
            ([Event.call (ActCall.moveMouse (i64_as_i32 dx) (i64_as_i32 dy)
                Coordinate.Rel)],
             Except.ok ()))
      = ([Event.call (ActCall.moveMouse dx dy Coordinate.Rel)], Except.ok ())
  rw [i64_as_i32_id dx hdx1 hdx2, i64_as_i32_id dy hdy1 hdy2, h]

theorem mouse_move_exact_witness :
    (-2147483648 ≤ (3 : Int) ∧ (3 : Int) < 2147483648 ∧
     -2147483648 ≤ (-4 : Int) ∧ (-4 : Int) < 2147483648 ∧
     alwaysOk (.moveMouse 3 (-4) .Rel) = none) ∧
    Handler.handle_message alwaysOk (.ok (.arr [.str "m", .int 3, .int (-4)]))
      = ([.call (.moveMouse 3 (-4) .Rel)], .ok ()) :=
  ⟨⟨by decide, by decide, by decide, by decide, rfl⟩,
    mouse_move_exact alwaysOk 3 (-4) (by decide) (by decide) (by decide)
      (by decide) rfl⟩

/-- C6: the frame `["k", "Delete"]` resolves to the `Backspace` actuator key
identifier — the very identifier a literal Backspace activation would use,
and a different identifier from enigo's forward-delete key — and dispatch
issues exactly one press-and-release (Click) activation of it. -/
theorem delete_maps_to_backspace (act : Act)
    (h : act (.key .Backspace .Click) = none) :
    Handler.handle_message act (.ok (.arr [.str "k", .str "Delete"]))
      = ([.call (.key .Backspace .Click)], .ok ()) ∧
    keyOfString "Delete" = some .Backspace ∧
    Key.Backspace ≠ Key.Delete := by
  refine ⟨?_, rfl, by decide⟩
  rw [handle_message_k]
  show (match act (ActCall.key Key.Backspace Direction.Click) with
        | some e =>
            ([Event.call (ActCall.key Key.Backspace Direction.Click)],
             Except.error (HErr.keyPressFailed e))
        | none =>
            ([Event.call (ActCall.key Key.Backspace Direction.Click)],
             Except.ok ()))
      = ([Event.call (ActCall.key Key.Backspace Direction.Click)],
         Except.ok ())
  rw [h]

theorem delete_maps_to_backspace_witness :
    alwaysOk (.key .Backspace .Click) = none ∧
    (Handler.handle_message alwaysOk (.ok (.arr [.str "k", .str "Delete"]))
        = ([.call (.key .Backspace .Click)], .ok ()) ∧
      keyOfString "Delete" = some .Backspace ∧
      Key.Backspace ≠ Key.Delete) :=
  ⟨rfl, delete_maps_to_backspace alwaysOk rfl⟩

/-- C2 counterexample: for `["b", "l", 2]` the code's click loop sleeps
after every click, including the final one — the trace ends in a 50 ms
suspension, refuting "no suspension after the final click". -/
theorem double_click_has_trailing_sleep :
    (Handler.handle_message alwaysOk
        (.ok (.arr [.str "b", .str "l", .int 2]))).1
      = [.call (.button .Left .Click), .sleepMs 50,
         .call (.button .Left .Click), .sleepMs 50] ∧
    (Handler.handle_message alwaysOk
        (.ok (.arr [.str "b", .str "l", .int 2]))).1.getLast?
      = some (.sleepMs 50) := by decide

/-- C2 as amended: for `["b", b, n]` with b ∈ {"l","r"} and 1 ≤ n < 2^32,
dispatch issues exactly n click calls on the resolved button; when n > 1 a
50 ms suspension follows every click — between consecutive clicks and also
after the final one; when n = 1 there is no suspension. -/
theorem button_click_trace (act : Act) (bs : String) (btn : Button) (n : Nat)
    (hb : buttonOfString bs = some btn) (h1 : 1 ≤ n) (h2 : n < 4294967296)
    (hact : act (.button btn .Click) = none) :
    Handler.handle_message act (.ok (.arr [.str "b", .str bs, .int n]))
      = (clickTrace n btn, .ok ()) ∧
    countClicks (clickTrace n btn) = n := by
  refine ⟨?_, countClicks_clickTrace n btn⟩
  have e2 := as_u64_intNat n (by omega)
  rw [handle_message_b, JVal.as_str, e2]
  show (match buttonOfString bs with
        | none => ([], Except.error (HErr.unknownButtonType bs))
        | some button => clickLoop act button (u64_as_u32 n) (u64_as_u32 n))
      = (clickTrace n btn, Except.ok ())
  rw [hb]
  show clickLoop act btn (u64_as_u32 n) (u64_as_u32 n)
      = (clickTrace n btn, Except.ok ())
  rw [u64_as_u32_id n h2, clickLoop_ok act btn n n hact]
  rfl

theorem button_click_trace_witness :
    (buttonOfString "l" = some .Left ∧ 1 ≤ 2 ∧ 2 < 4294967296 ∧
     alwaysOk (.button .Left .Click) = none) ∧
    (Handler.handle_message alwaysOk
        (.ok (.arr [.str "b", .str "l", .int (2 : Nat)]))
      = (clickTrace 2 .Left, .ok ()) ∧
     countClicks (clickTrace 2 .Left) = 2) :=
  ⟨⟨rfl, by decide, by decide, rfl⟩,
    button_click_trace alwaysOk "l" .Left 2 rfl (by decide) (by decide) rfl⟩

/-- C9: integer deltas outside the signed 32-bit range (but within i64), and
click counts above the unsigned 32-bit range (but within u64), are not
rejected as type errors: the value is silently truncated — reduced modulo
2^32 — by the `as i32` / `as u32` cast before reaching the actuator call or
the click loop. -/
theorem out_of_range_values_truncated (dx dy dyw : Int) (bs : String)
    (btn : Button) (n : Nat)
    (hdx1 : -9223372036854775808 ≤ dx) (hdx2 : dx < 9223372036854775808)
    (hdy1 : -9223372036854775808 ≤ dy) (hdy2 : dy < 9223372036854775808)
    (hw1 : -9223372036854775808 ≤ dyw) (hw2 : dyw < 9223372036854775808)
    (hb : buttonOfString bs = some btn)
    (hn : n < 18446744073709551616) :
    Handler.handle_message alwaysOk (.ok (.arr [.str "m", .int dx, .int dy]))
      = ([.call (.moveMouse (i64_as_i32 dx) (i64_as_i32 dy) .Rel)], .ok ()) ∧
    Handler.handle_message alwaysOk (.ok (.arr [.str "w", .int dyw]))
      = ([.call (.scroll (i64_as_i32 dyw) .Vertical)], .ok ()) ∧
    Handler.handle_message alwaysOk
        (.ok (.arr [.str "b", .str bs, .int (n : Int)]))
      = (clickTrace (n % 4294967296) btn, .ok ()) ∧
    (i64_as_i32 dx % 4294967296 = dx % 4294967296 ∧
     u64_as_u32 n = n % 4294967296) := by
  refine ⟨?_, ?_, ?_, (i64_as_i32_emod dx).1, rfl⟩
  · rw [handle_message_m, as_i64_int dx hdx1 hdx2, as_i64_int dy hdy1 hdy2]
    rfl
  · rw [handle_message_w, as_i64_int dyw hw1 hw2]
    rfl
  · rw [handle_message_b, JVal.as_str, as_u64_intNat n hn]
    show (match buttonOfString bs with
          | none => ([], Except.error (HErr.unknownButtonType bs))
          | some button =>
              clickLoop alwaysOk button (u64_as_u32 n) (u64_as_u32 n))
        = (clickTrace (n % 4294967296) btn, Except.ok ())
    rw [hb]
    show clickLoop alwaysOk btn (u64_as_u32 n) (u64_as_u32 n)
        = (clickTrace (n % 4294967296) btn, Except.ok ())
    rw [clickLoop_ok alwaysOk btn (u64_as_u32 n) (u64_as_u32 n) rfl]
    rfl

theorem out_of_range_values_truncated_witness :
    (buttonOfString "l" = some .Left ∧ (4294967298 : Nat) < 18446744073709551616) ∧
    (Handler.handle_message alwaysOk
        (.ok (.arr [.str "m", .int 4294967301, .int (-4294967297)]))
      = ([.call (.moveMouse (i64_as_i32 4294967301)
            (i64_as_i32 (-4294967297)) .Rel)], .ok ()) ∧
     Handler.handle_message alwaysOk (.ok (.arr [.str "w", .int 2147483648]))
      = ([.call (.scroll (i64_as_i32 2147483648) .Vertical)], .ok ()) ∧
     Handler.handle_message alwaysOk
        (.ok (.arr [.str "b", .str "l", .int ((4294967298 : Nat) : Int)]))
      = (clickTrace (4294967298 % 4294967296) .Left, .ok ()) ∧
     (i64_as_i32 4294967301 % 4294967296 = 4294967301 % 4294967296 ∧
      u64_as_u32 4294967298 = 4294967298 % 4294967296)) :=
  ⟨⟨rfl, by decide⟩,
    out_of_range_values_truncated 4294967301 (-4294967297) 2147483648 "l"
      .Left 4294967298 (by decide) (by decide) (by decide) (by decide)
      (by decide) (by decide) rfl (by decide)⟩

theorem socketLoop_trace_cons (act : Act) (raw : String)
    (p : Except String JVal) (rest : List Handler.WsMsg) :
    (Handler.socketLoop act (.text raw p :: rest)).1
      = (Handler.handle_message act p).1 ++ (Handler.socketLoop act rest).1 := by
  simp only [Handler.socketLoop]
  cases h : (Handler.handle_message act p).2 <;> simp [h]

theorem socketLoop_all_text_trace (act : Act)
    (frames : List (String × Except String JVal)) :
    (Handler.socketLoop act
        (frames.map (fun f => Handler.WsMsg.text f.1 f.2))).1
      = (frames.map (fun f => (Handler.handle_message act f.2).1)).flatten := by
  induction frames with
  | nil => rfl
  | cons f rest ih =>
      rw [List.map_cons, List.map_cons, List.flatten_cons,
        socketLoop_trace_cons, ih]

/-- C1: for every finite sequence of text frames delivered on one
connection, the Session loop processes them strictly in order: the
actuator-event trace of the whole connection is the in-order concatenation
of the per-frame dispatch traces (each frame's events — calls and inter- or
post-click suspensions — form a contiguous block, so dispatches neither
reorder nor interleave). -/
theorem session_trace_is_inorder_concat (act : Act)
    (frames : List (String × Except String JVal)) :
    (Handler.handle_socket (.ok ()) act
        (frames.map (fun f => Handler.WsMsg.text f.1 f.2))).1
      = (frames.map (fun f => (Handler.handle_message act f.2).1)).flatten :=
  socketLoop_all_text_trace act frames

/-- C4: a frame whose handling returns an error — codec failure or
actuator-reported failure — never closes the Session: the error is logged
with the offending raw frame and the loop goes on to dispatch the remaining
messages; a successful or ignored frame likewise continues; only an
explicit close frame or a transport-level read error terminates the loop. -/
theorem handler_error_keeps_session_open (act : Act) (raw : String)
    (p : Except String JVal) (rest : List Handler.WsMsg) (e : HErr)
    (te : String) :
    ((Handler.handle_message act p).2 = .error e →
      Handler.socketLoop act (.text raw p :: rest)
        = ((Handler.handle_message act p).1 ++ (Handler.socketLoop act rest).1,
           (raw, e.render) :: (Handler.socketLoop act rest).2)) ∧
    ((Handler.handle_message act p).2 = .ok () →
      Handler.socketLoop act (.text raw p :: rest)
        = ((Handler.handle_message act p).1 ++ (Handler.socketLoop act rest).1,
           (Handler.socketLoop act rest).2)) ∧
    Handler.socketLoop act (.other :: rest) = Handler.socketLoop act rest ∧
    Handler.socketLoop act (.close :: rest) = ([], []) ∧
    Handler.socketLoop act (.transportError te :: rest) = ([], []) := by
  refine ⟨fun h => ?_, fun h => ?_, rfl, rfl, rfl⟩ <;>
    simp [Handler.socketLoop, h]

theorem handler_error_keeps_session_open_witness :
    (Handler.handle_message alwaysOk (.ok (.obj []))).2 = .error .notArray ∧
    Handler.socketLoop alwaysOk
        [.text "bad" (.ok (.obj [])), .text "ping-frame" (.ok (.arr [.str "ping"]))]
      = ([], [("bad", "Message is not an array")]) := by
  refine ⟨rfl, ?_⟩
  have h := (handler_error_keeps_session_open alwaysOk "bad" (.ok (.obj []))
    [.text "ping-frame" (.ok (.arr [.str "ping"]))] .notArray "").1 rfl
  rw [h]
  rfl

theorem codec_m (act : Act) (args : List JVal) :
    outcomeClass (Handler.handle_m act args).2 = specM args ∧
    (∀ e, (Handler.handle_m act args).2 = .error e →
      e.specClass ≠ .ActuatorError → (Handler.handle_m act args).1 = []) := by
  match args with
  | [] => exact ⟨rfl, fun e he hn => rfl⟩
  | [a1] => exact ⟨rfl, fun e he hn => rfl⟩
  | a1 :: a2 :: rest =>
      cases h1 : a1.as_i64 with
      | none => simp [Handler.handle_m, specM, h1, outcomeClass, HErr.specClass]
      | some dxRaw =>
          cases h2 : a2.as_i64 with
          | none =>
              simp [Handler.handle_m, specM, h1, h2, outcomeClass, HErr.specClass]
          | some dyRaw =>
              cases hact : act (.moveMouse (i64_as_i32 dxRaw) (i64_as_i32 dyRaw) .Rel) with
              | none =>
                  simp [Handler.handle_m, specM, h1, h2, hact, outcomeClass]
              | some err =>
                  simp [Handler.handle_m, specM, h1, h2, hact, outcomeClass,
                    HErr.specClass]


theorem codec_b (act : Act) (args : List JVal) :
    outcomeClass (Handler.handle_b act args).2 = specB args ∧
    (∀ e, (Handler.handle_b act args).2 = .error e →
      e.specClass ≠ .ActuatorError → (Handler.handle_b act args).1 = []) := by
  match args with
  | [] => exact ⟨rfl, fun e he hn => rfl⟩
  | [a1] => exact ⟨rfl, fun e he hn => rfl⟩
  | a1 :: a2 :: rest =>
      cases h1 : a1.as_str with
      | none => simp [Handler.handle_b, specB, h1, outcomeClass, HErr.specClass]
      | some bt =>
          cases h2 : a2.as_u64 with
          | none =>
              simp [Handler.handle_b, specB, h1, h2, outcomeClass, HErr.specClass]
          | some cnt =>
              by_cases hl : bt = "l"
              · have red : Handler.handle_b act (a1 :: a2 :: rest)
                    = clickLoop act .Left (u64_as_u32 cnt) (u64_as_u32 cnt) := by
                  simp [Handler.handle_b, h1, h2, hl, buttonOfString]
                have hs : specB (a1 :: a2 :: rest) = none := by
                  simp [specB, h1, h2, hl]
                rw [red, hs]
                obtain ⟨hc1, hc2⟩ :=
                  clickLoop_err_class act .Left (u64_as_u32 cnt) (u64_as_u32 cnt)
                exact ⟨hc1, fun e he hn => absurd (hc2 e he) hn⟩
              · by_cases hr : bt = "r"
                · have red : Handler.handle_b act (a1 :: a2 :: rest)
                      = clickLoop act .Right (u64_as_u32 cnt) (u64_as_u32 cnt) := by
                    simp [Handler.handle_b, h1, h2, hl, hr, buttonOfString]
                  have hs : specB (a1 :: a2 :: rest) = none := by
                    simp [specB, h1, h2, hr]
                  rw [red, hs]
                  obtain ⟨hc1, hc2⟩ :=
                    clickLoop_err_class act .Right (u64_as_u32 cnt) (u64_as_u32 cnt)
                  exact ⟨hc1, fun e he hn => absurd (hc2 e he) hn⟩
                · simp [Handler.handle_b, specB, h1, h2, hl, hr, buttonOfString,
                    outcomeClass, HErr.specClass]

theorem codec_w (act : Act) (args : List JVal) :
    outcomeClass (Handler.handle_w act args).2 = specW args ∧
    (∀ e, (Handler.handle_w act args).2 = .error e →
      e.specClass ≠ .ActuatorError → (Handler.handle_w act args).1 = []) := by
  match args with
  | [] => exact ⟨rfl, fun e he hn => rfl⟩
  | a1 :: rest =>
      cases h1 : a1.as_i64 with
      | none => simp [Handler.handle_w, specW, h1, outcomeClass, HErr.specClass]
      | some dyRaw =>
          cases hact : act (.scroll (i64_as_i32 dyRaw) .Vertical) with
          | none => simp [Handler.handle_w, specW, h1, hact, outcomeClass]
          | some err =>
              simp [Handler.handle_w, specW, h1, hact, outcomeClass,
                HErr.specClass]

theorem codec_t (act : Act) (args : List JVal) :
    outcomeClass (Handler.handle_t act args).2 = specT args ∧
    (∀ e, (Handler.handle_t act args).2 = .error e →
      e.specClass ≠ .ActuatorError → (Handler.handle_t act args).1 = []) := by
  match args with
  | [] => exact ⟨rfl, fun e he hn => rfl⟩
  | a1 :: rest =>
      cases h1 : a1.as_str with
      | none => simp [Handler.handle_t, specT, h1, outcomeClass, HErr.specClass]
      | some tc =>
          cases hact : act (.text tc) with
          | none => simp [Handler.handle_t, specT, h1, hact, outcomeClass]
          | some err =>
              simp [Handler.handle_t, specT, h1, hact, outcomeClass,
                HErr.specClass]

theorem codec_k (act : Act) (args : List JVal) :
    outcomeClass (Handler.handle_k act args).2 = specK args ∧
    (∀ e, (Handler.handle_k act args).2 = .error e →
      e.specClass ≠ .ActuatorError → (Handler.handle_k act args).1 = []) := by
  match args with
  | [] => exact ⟨rfl, fun e he hn => rfl⟩
  | a1 :: rest =>
      cases h1 : a1.as_str with
      | none => simp [Handler.handle_k, specK, h1, outcomeClass, HErr.specClass]
      | some kn =>
          have main : ∀ key, keyOfString kn = some key →
              specK (a1 :: rest) = none →
              outcomeClass (Handler.handle_k act (a1 :: rest)).2
                  = specK (a1 :: rest) ∧
              (∀ e, (Handler.handle_k act (a1 :: rest)).2 = .error e →
                e.specClass ≠ .ActuatorError →
                (Handler.handle_k act (a1 :: rest)).1 = []) := by
            intro key hkey hspec
            have red : Handler.handle_k act (a1 :: rest)
                = (match act (.key key .Click) with
                   | some e => ([Event.call (ActCall.key key Direction.Click)],
                       Except.error (HErr.keyPressFailed e))
                   | none => ([Event.call (ActCall.key key Direction.Click)],
                       Except.ok ())) := by
              simp [Handler.handle_k, h1, hkey]
            rw [red, hspec]
            cases hact : act (.key key .Click) with
            | none => exact ⟨rfl, fun e he hn => by simp at he⟩
            | some err =>
                refine ⟨rfl, fun e he hn => ?_⟩
                simp at he
                subst he
                exact absurd rfl hn
          by_cases k1 : kn = "Escape"
          · exact main .Escape (by simp [keyOfString, k1])
              (by simp [specK, h1, k1])
          · by_cases k2 : kn = "PageUp"
            · exact main .PageUp (by simp [keyOfString, k1, k2])
                (by simp [specK, h1, k2])
            · by_cases k3 : kn = "PageDown"
              · exact main .PageDown (by simp [keyOfString, k1, k2, k3])
                  (by simp [specK, h1, k3])
              · by_cases k4 : kn = "Delete"
                · exact main .Backspace (by simp [keyOfString, k1, k2, k3, k4])
                    (by simp [specK, h1, k4])
                · by_cases k5 : kn = "Return"
                  · exact main .Return
                      (by simp [keyOfString, k1, k2, k3, k4, k5])
                      (by simp [specK, h1, k5])
                  · simp [Handler.handle_k, specK, h1, keyOfString,
                      k1, k2, k3, k4, k5, outcomeClass, HErr.specClass]


theorem handle_message_cons (act : Act) (a0 : JVal) (rest : List JVal) :
    Handler.handle_message act (.ok (.arr (a0 :: rest)))
      = (match a0.as_str with
         | none => ([], .error .invalidCommandType)
         | some cmd =>
           if cmd = "m" then Handler.handle_m act rest
           else if cmd = "b" then Handler.handle_b act rest
           else if cmd = "w" then Handler.handle_w act rest
           else if cmd = "t" then Handler.handle_t act rest
           else if cmd = "k" then Handler.handle_k act rest
           else if cmd = "ping" then ([], .ok ())
           else ([], .error (.unknownCommand cmd))) := rfl

theorem specErrorClass_cons (a0 : JVal) (rest : List JVal) :
    specErrorClass (.ok (.arr (a0 :: rest)))
      = (match a0.as_str with
         | none => some .MissingTag
         | some tag =>
           if tag = "m" then specM rest
           else if tag = "b" then specB rest
           else if tag = "w" then specW rest
           else if tag = "t" then specT rest
           else if tag = "k" then specK rest
           else if tag = "ping" then none
           else some .UnknownCommand) := rfl

/-- C3: for every parse outcome, the codec-level class of the handler's
result equals the class the spec's §4.1 contract assigns (`none` meaning
the frame is well formed or failed only inside the actuator), and whenever
the handler fails with a codec/validation error — malformed payload,
non-array, empty array, missing tag, arity, type, unknown command, unknown
key or button name — it has performed zero actuator calls. -/
theorem codec_conforms (act : Act) (parsed : Except String JVal) :
    outcomeClass (Handler.handle_message act parsed).2 = specErrorClass parsed ∧
    (∀ e, (Handler.handle_message act parsed).2 = .error e →
      e.specClass ≠ .ActuatorError →
      (Handler.handle_message act parsed).1 = []) := by
  match parsed with
  | .error msg => exact ⟨rfl, fun e he hn => rfl⟩
  | .ok .null => exact ⟨rfl, fun e he hn => rfl⟩
  | .ok (.bool b) => exact ⟨rfl, fun e he hn => rfl⟩
  | .ok (.int n) => exact ⟨rfl, fun e he hn => rfl⟩
  | .ok .float => exact ⟨rfl, fun e he hn => rfl⟩
  | .ok (.str s) => exact ⟨rfl, fun e he hn => rfl⟩
  | .ok (.obj fs) => exact ⟨rfl, fun e he hn => rfl⟩
  | .ok (.arr []) => exact ⟨rfl, fun e he hn => rfl⟩
  | .ok (.arr (a0 :: rest)) =>
      rw [handle_message_cons, specErrorClass_cons]
      cases h0 : a0.as_str with
      | none => exact ⟨rfl, fun e he hn => rfl⟩
      | some cmd =>
          by_cases hm : cmd = "m"
          · simp only [hm, if_pos, reduceIte]
            exact codec_m act rest
          · by_cases hb : cmd = "b"
            · simp only [hm, hb, reduceIte, if_neg, if_pos]
              exact codec_b act rest
            · by_cases hw : cmd = "w"
              · simp only [hm, hb, hw, reduceIte, if_neg, if_pos]
                exact codec_w act rest
              · by_cases ht : cmd = "t"
                · simp only [hm, hb, hw, ht, reduceIte, if_neg, if_pos]
                  exact codec_t act rest
                · by_cases hk : cmd = "k"
                  · simp only [hm, hb, hw, ht, hk, reduceIte, if_neg, if_pos]
                    exact codec_k act rest
                  · by_cases hp : cmd = "ping"
                    · simp only [hm, hb, hw, ht, hk, hp, reduceIte, if_neg,
                        if_pos]
                      exact ⟨rfl, fun e he hn => by trivial⟩
                    · simp only [hm, hb, hw, ht, hk, hp, reduceIte, if_neg]
                      exact ⟨rfl, fun e he hn => by trivial⟩

theorem codec_conforms_witness :
    specErrorClass (.ok (.arr [.str "b", .str "x", .int 1]))
      = some .UnknownButtonName ∧
    (Handler.handle_message alwaysOk
        (.ok (.arr [.str "b", .str "x", .int 1]))).1 = [] :=
  ⟨by decide,
    (codec_conforms alwaysOk (.ok (.arr [.str "b", .str "x", .int 1]))).2
      (.unknownButtonType "x") rfl (by decide)⟩

theorem main_handle_message_cons (act : Act) (a0 : JVal) (rest : List JVal) :
    MainSnapshot.handle_message act (.ok (.arr (a0 :: rest)))
      = (match a0.as_str with
         | none => ([], .error .invalidCommandType)
         | some cmd =>
           if cmd = "m" then Handler.handle_m act rest
           else if cmd = "b" then Handler.handle_b act rest
           else if cmd = "w" then Handler.handle_w act rest
           else if cmd = "t" then Handler.handle_t act rest
           else if cmd = "ping" then ([], .ok ())
           else ([], .error (.unknownCommand cmd))) := rfl

/-- C10 counterexample: the snapshot handler in `src/main.rs` has no `"k"`
arm, so it is not equivalent to the handler in `src/handler.rs`: on
`["k", "Escape"]` the latter presses Escape while the former performs no
call and fails with the unknown-command error. -/
theorem snapshot_rejects_k_frames :
    Handler.handle_message alwaysOk (.ok (.arr [.str "k", .str "Escape"]))
      = ([.call (.key .Escape .Click)], .ok ()) ∧
    MainSnapshot.handle_message alwaysOk (.ok (.arr [.str "k", .str "Escape"]))
      = ([], .error (.unknownCommand "k")) ∧
    MainSnapshot.handle_message alwaysOk (.ok (.arr [.str "k", .str "Escape"]))
      ≠ Handler.handle_message alwaysOk (.ok (.arr [.str "k", .str "Escape"]))
    := by decide

/-- C10 as amended: the snapshot `handle_message` in `src/main.rs` and the
`handle_message` in `src/handler.rs` agree — same result and same actuator
trace — on every input frame whose tag is not `"k"` (including all
non-array, malformed and unknown-tag inputs); on a `"k"`-tagged frame the
snapshot performs no actuator call and fails with the unknown-command
error, so the snapshot accepts only the tag set {"m","b","w","t","ping"}. -/
theorem snapshot_agrees_except_k (act : Act) (parsed : Except String JVal) :
    (tagOf parsed ≠ some "k" →
      MainSnapshot.handle_message act parsed
        = Handler.handle_message act parsed) ∧
    (tagOf parsed = some "k" →
      MainSnapshot.handle_message act parsed
        = ([], .error (.unknownCommand "k"))) := by
  match parsed with
  | .error msg => exact ⟨fun _ => rfl, fun h => by simp [tagOf] at h⟩
  | .ok .null => exact ⟨fun _ => rfl, fun h => by simp [tagOf] at h⟩
  | .ok (.bool b) => exact ⟨fun _ => rfl, fun h => by simp [tagOf] at h⟩
  | .ok (.int n) => exact ⟨fun _ => rfl, fun h => by simp [tagOf] at h⟩
  | .ok .float => exact ⟨fun _ => rfl, fun h => by simp [tagOf] at h⟩
  | .ok (.str s) => exact ⟨fun _ => rfl, fun h => by simp [tagOf] at h⟩
  | .ok (.obj fs) => exact ⟨fun _ => rfl, fun h => by simp [tagOf] at h⟩
  | .ok (.arr []) => exact ⟨fun _ => rfl, fun h => by simp [tagOf] at h⟩
  | .ok (.arr (a0 :: rest)) =>
      have htag : tagOf (.ok (.arr (a0 :: rest))) = a0.as_str := rfl
      cases h0 : a0.as_str with
      | none =>
          refine ⟨fun _ => ?_, fun h => ?_⟩
          · rw [main_handle_message_cons, handle_message_cons, h0]
          · rw [htag, h0] at h
            exact absurd h (by simp)
      | some cmd =>
          rw [main_handle_message_cons, handle_message_cons, htag, h0]
          by_cases hk : cmd = "k"
          · refine ⟨fun hne => absurd (by rw [hk]) hne, fun _ => ?_⟩
            simp [hk]
          · refine ⟨fun _ => ?_, fun h => absurd (Option.some.inj h) hk⟩
            by_cases hm : cmd = "m"
            · simp [hm]
            · by_cases hb : cmd = "b"
              · simp [hm, hb]
              · by_cases hw : cmd = "w"
                · simp [hm, hb, hw]
                · by_cases ht : cmd = "t"
                  · simp [hm, hb, hw, ht]
                  · by_cases hp : cmd = "ping"
                    · simp [hm, hb, hw, ht, hk, hp]
                    · simp [hm, hb, hw, ht, hk, hp]

theorem snapshot_agrees_except_k_witness :
    tagOf (.ok (.arr [.str "m", .int 1, .int 2])) ≠ some "k" ∧
    MainSnapshot.handle_message alwaysOk (.ok (.arr [.str "m", .int 1, .int 2]))
      = Handler.handle_message alwaysOk (.ok (.arr [.str "m", .int 1, .int 2])) ∧
    tagOf (.ok (.arr [.str "k", .str "Return"])) = some "k" ∧
    MainSnapshot.handle_message alwaysOk (.ok (.arr [.str "k", .str "Return"]))
      = ([], .error (.unknownCommand "k")) :=
  ⟨by decide,
    (snapshot_agrees_except_k alwaysOk
      (.ok (.arr [.str "m", .int 1, .int 2]))).1 (by decide),
    by decide,
    (snapshot_agrees_except_k alwaysOk
      (.ok (.arr [.str "k", .str "Return"]))).2 (by decide)⟩

end TouchRelay
